import Mathlib

/-!
# Verification of the rickify chat client session/streaming model

Shallow embedding of `src/app/page.tsx` (the `Home` component: session store,
streaming assembler, send operation) and of the API route module (the
gateway-facing server component).  JavaScript `Date` instants are modelled as
`Nat` millisecond timestamps; ISO-8601 timestamp text is modelled as the
canonical decimal rendering of that number (an injective textual encoding with
an explicit parser, which is all the round-trip properties depend on).
UI-presentation state (`loading`, `error`, `sidebarOpen`) carries no session
data and is omitted.
-/

namespace Rickify

/-- Source union `type MessageRole = "user" | "assistant" | "system"` (page.tsx line 9). -/
inductive MessageRole where
  | user
  | assistant
  | system
deriving DecidableEq, Repr

/-- A JavaScript value sitting in a timestamp-typed field at runtime: either a
live `Date` instant (milliseconds) or ISO text left over from `JSON.parse`.
The TypeScript annotation says `Date`, but values loaded from storage are in
fact strings, so the embedding keeps both shapes. -/
inductive TimeVal where
  | instant (t : Nat)
  | text (s : String)
deriving DecidableEq, Repr

/-- Source `interface Message` (page.tsx lines 11-15). -/
structure Message where
  role : MessageRole
  content : String
  timestamp : Option TimeVal
deriving DecidableEq, Repr

/-- Source `interface Chat` (page.tsx lines 17-22). -/
structure Chat where
  id : String
  title : String
  messages : List Message
  createdAt : TimeVal
deriving DecidableEq, Repr

/-- The session-relevant `useState` hooks of `Home` (page.tsx lines 39-41):
`chats`, `activeChat`, `userInput`. -/
structure HomeState where
  chats : List Chat
  activeChat : Option Chat
  userInput : String
deriving DecidableEq, Repr

/-- Model of `String.prototype.trim`: drop leading and trailing whitespace
characters (defined over the character list so that concrete states
evaluate). -/
def jsTrim (s : String) : String :=
  ⟨((s.data.dropWhile Char.isWhitespace).reverse.dropWhile
      Char.isWhitespace).reverse⟩

/-- Model of `String.prototype.slice(0, n)`: the first `n` characters
(defined over the character list so that concrete states evaluate). -/
def jsSlice (n : Nat) (s : String) : String :=
  ⟨s.data.take n⟩

/-- Source expression `messages[0]?.content.slice(0, 30) || chat.title` (page.tsx line 85):
the recomputed title is the first message's leading 30 characters unless that
slice is falsy (no first message, or empty slice), in which case the old title
is kept. -/
def derivedTitle (messages : List Message) (old : String) : String :=
  match messages.head? with
  | none => old
  | some m => if jsSlice 30 m.content = "" then old else jsSlice 30 m.content

/-- The per-chat update performed inside `updateChat`'s `map`
(page.tsx lines 83-87): replace the messages, recompute the title. -/
def applyUpd (chat : Chat) (messages : List Message) : Chat :=
  { chat with title := derivedTitle messages chat.title, messages := messages }

/-- Source `updateChat` (page.tsx lines 80-97): map over `chats` replacing the
matching chat's messages (and recomputing its title), then look the updated
chat up again by id and, when found, make it the active chat. -/
def updateChat (s : HomeState) (chatId : String) (messages : List Message) :
    HomeState :=
  let updatedChats := s.chats.map fun chat =>
    if chat.id = chatId then applyUpd chat messages else chat
  { s with
    chats := updatedChats
    activeChat :=
      match updatedChats.find? (fun chat => chat.id == chatId) with
      | some c => some c
      | none => s.activeChat }

/-- The first chat (if any) whose id matches, as the source looks chats up
with `chats.find(...)`. -/
def getChat (s : HomeState) (chatId : String) : Option Chat :=
  s.chats.find? (fun chat => chat.id == chatId)

/-- The `newChat` record built by `createNewChat` (page.tsx lines 69-74):
id is `Date.now().toString()`, title is `New Chat ${chats.length + 1}`. -/
def newChatRecord (s : HomeState) (now : Nat) : Chat :=
  { id := toString now
    title := "New Chat " ++ toString (s.chats.length + 1)
    messages := []
    createdAt := .instant now }

/-- Source `createNewChat` (page.tsx lines 68-77): append the new chat and make it
active. -/
def createNewChat (s : HomeState) (now : Nat) : HomeState :=
  { s with
    chats := s.chats ++ [newChatRecord s now]
    activeChat := some (newChatRecord s now) }

/-- Source `createRickPrompt` (page.tsx lines 24-30). -/
def createRickPrompt (userInput : String) : String :=
  "You are Rick from Rick and Morty. Respond to the following message in Rick\x27s characteristic style, complete with his mannerisms, catchphrases, and attitude. Be sarcastic, scientific, and occasionally burp (use *burp* in text). Keep responses under 200 words.\n\nUser message: " ++ userInput ++ "\n\nRick\x27s response:"

/-- The toast text shown by `handleError` (page.tsx line 34). -/
def handleErrorToast : String := "Something went wrong. Please try again."

/-- The JSON body sent to `/api/together` and decoded by the route
(page.tsx lines 139-142, route `RequestBody`). -/
structure RequestBody where
  prompt : String
  model : String
deriving DecidableEq, Repr

/-- What the gateway does with the single request `sendMessage` issues:
either the initial response is not ok (non-2xx / network failure), or a
stream of content deltas is delivered, possibly followed by a stream error
(`errored = true`).  The source subscribes only to the `content` event
(page.tsx line 151), so a stream error after the deltas reaches no handler. -/
inductive GatewayResponse where
  | httpFailure
  | stream (deltas : List String) (errored : Bool)
deriving DecidableEq, Repr

/-- The `content` callback loop (page.tsx lines 148-163): for each delta,
extend the accumulator `rickResponse` and hand `updatedMessages` (the list
captured when the send started) plus one assistant message holding the
accumulator to `updateChat`.  `tick i` is the `new Date()` taken inside the
`i`-th callback. -/
def runDeltas (st : HomeState) (chatId : String) (base : List Message)
    (acc : String) (tick : Nat → Nat) (i : Nat) : List String → HomeState
  | [] => st
  | d :: ds =>
      runDeltas
        (updateChat st chatId
          (base ++ [⟨.assistant, acc ++ d, some (.instant (tick i))⟩]))
        chatId base (acc ++ d) tick (i + 1) ds

/-- Everything observable about one call to `sendMessage`: the state it
leaves behind, the toasts it raised, and the request (if any) it sent. -/
structure SendResult where
  state : HomeState
  toasts : List String
  request : Option RequestBody
deriving DecidableEq, Repr

/-- Source `sendMessage` (page.tsx lines 112-169).  Blank (post-`trim`) input
returns immediately; with no active chat it calls `createNewChat` and
returns (the input is not cleared and nothing is sent); otherwise it appends
the user message via `updateChat`, clears the input, issues the request, and
on a 2xx response folds the stream's deltas with `runDeltas`.  An HTTP
failure is caught and toasted; a stream error has no registered handler, so
it produces no toast. -/
def sendMessage (s : HomeState) (now : Nat) (tick : Nat → Nat)
    (resp : GatewayResponse) : SendResult :=
  if jsTrim s.userInput = "" then ⟨s, [], none⟩
  else
    match s.activeChat with
    | none => ⟨createNewChat s now, [], none⟩
    | some activeChat =>
        let newMessage : Message := ⟨.user, s.userInput, some (.instant now)⟩
        let updatedMessages := activeChat.messages ++ [newMessage]
        let s1 : HomeState :=
          { updateChat s activeChat.id updatedMessages with userInput := "" }
        let req : RequestBody :=
          ⟨createRickPrompt s.userInput, "mistralai/Mixtral-8x7B-Instruct-v0.1"⟩
        match resp with
        | .httpFailure => ⟨s1, [handleErrorToast], some req⟩
        | .stream deltas _ =>
            ⟨runDeltas s1 activeChat.id updatedMessages "" tick 0 deltas,
              [], some req⟩

/-! ## Persistence (the two `useEffect`s, page.tsx lines 47-65)

`JSON.stringify(chats)` turns every `Date` into its ISO text; `JSON.parse`
yields plain records whose timestamp fields are strings.  The load effect
converts only `createdAt` back with `new Date(...)`; message timestamps stay
text.  ISO text for the instant `t` is modelled as the decimal numeral of
`t`, an injective encoding with `parseIso` as its left inverse. -/

/-- Decimal digit character for `d < 10`. -/
def digitChar (d : Nat) : Char := Char.ofNat (48 + d)

/-- Numeric value of a decimal digit character. -/
def digitVal (c : Char) : Nat := c.toNat - 48

/-- The decimal digits of `n`, least significant first (empty for 0), with
structural fuel so that the kernel can evaluate it: `fuel ≥ n` suffices. -/
def natDigitsAux : Nat → Nat → List Char
  | _, 0 => []
  | 0, _ => []
  | fuel + 1, n + 1 => digitChar ((n + 1) % 10) :: natDigitsAux fuel ((n + 1) / 10)

/-- Model of `Date.prototype.toISOString`: the canonical decimal text of the
instant. -/
def isoOf (t : Nat) : String :=
  if t = 0 then "0" else String.mk (natDigitsAux t t).reverse

/-- Model of `new Date(isoText)` recovering the instant. -/
def parseIso (s : String) : Nat :=
  s.data.foldl (fun acc c => acc * 10 + digitVal c) 0

/-- What `JSON.stringify` leaves in a timestamp field: a `Date` becomes its
ISO text, a string stays itself. -/
def serializeTime : TimeVal → String
  | .instant t => isoOf t
  | .text s => s

/-- A message as it sits in the `localStorage` JSON: the timestamp field, if
present, is text. -/
structure StoredMessage where
  role : MessageRole
  content : String
  timestamp : Option String
deriving DecidableEq, Repr

/-- A chat record in the `localStorage` JSON. -/
structure StoredChat where
  id : String
  title : String
  messages : List StoredMessage
  createdAt : String
deriving DecidableEq, Repr

/-- The save effect (page.tsx lines 63-65): `JSON.stringify(chats)`.  Only
the chat list is persisted; `activeChat` and `userInput` are not. -/
def storeChats (chats : List Chat) : List StoredChat :=
  chats.map fun c =>
    { id := c.id
      title := c.title
      messages := c.messages.map fun m =>
        { role := m.role
          content := m.content
          timestamp := m.timestamp.map serializeTime }
      createdAt := serializeTime c.createdAt }

/-- One parsed chat in the load effect (page.tsx lines 51-54): spread the
parsed record and replace `createdAt` by `new Date(chat.createdAt)`.
Message timestamps are not converted and remain text. -/
def loadChat (c : StoredChat) : Chat :=
  { id := c.id
    title := c.title
    messages := c.messages.map fun m =>
      { role := m.role
        content := m.content
        timestamp := m.timestamp.map .text }
    createdAt := .instant (parseIso c.createdAt) }

/-- The load effect (page.tsx lines 47-61): convert the chats and make the
last one active when the list is nonempty; the input box starts empty. -/
def loadChats (saved : List StoredChat) : HomeState :=
  let convertedChats := saved.map loadChat
  { chats := convertedChats
    activeChat := convertedChats.getLast?
    userInput := "" }

/-- A message after one store/load cycle: an instant timestamp degrades to
its serialized text (the load effect never converts message timestamps
back). -/
def roundTrippedMessage (m : Message) : Message :=
  { m with timestamp := m.timestamp.map fun tv => .text (serializeTime tv) }

/-- A chat after one store/load cycle: only the messages change (their
timestamps degrade to text); `createdAt` survives whenever it was an
instant. -/
def roundTrippedChat (c : Chat) : Chat :=
  { c with messages := c.messages.map roundTrippedMessage }

/-! ## The API route module (the gateway-facing server component) -/

/-- The message text of the `throw` guarding the credential (route module,
`if (!process.env.TOGETHER_API_KEY) throw new Error(...)`). -/
def missingKeyError : String := "Missing together env var"

/-- What the route's `POST` handler returns: a streamed body on success, or
the catch-all 500 JSON error. -/
inductive ApiResponse where
  | ok (stream : List String)
  | internalError (status : Nat) (body : String)
deriving DecidableEq, Repr

/-- The route's `POST` handler body: forward the provider's stream, or catch
any error into a 500 response with body `{"error":"Internal Server Error"}`. -/
def postHandler (_body : RequestBody) (provider : Except String (List String)) :
    ApiResponse :=
  match provider with
  | .ok deltas => .ok deltas
  | .error _ => .internalError 500 "Internal Server Error"

/-- Module initialization of the API route: the credential check runs at
module load, so when `TOGETHER_API_KEY` is absent (or empty, which is falsy)
the module throws and no `POST` handler ever comes into existence.  `key` is
`process.env.TOGETHER_API_KEY`. -/
def apiModule (key : Option String) :
    Except String (RequestBody → Except String (List String) → ApiResponse) :=
  if key.getD "" = "" then .error missingKeyError else .ok postHandler

/-! ## Concrete example states used by counterexamples and witnesses -/

/-- A bare chat with id `"a"`. -/
def exChatA : Chat := ⟨"a", "A", [], .instant 0⟩

/-- A bare chat with id `"b"`. -/
def exChatB : Chat := ⟨"b", "B", [], .instant 0⟩

/-- A user message. -/
def exMsg : Message := ⟨.user, "hi", some (.instant 0)⟩

/-- Two chats, the first one active. -/
def exTwoChatState : HomeState := ⟨[exChatA, exChatB], some exChatA, ""⟩

/-- One chat, active, with pending input. -/
def exSendState : HomeState := ⟨[exChatA], some exChatA, "hi"⟩

/-- A chat carrying one timestamped message, for the persistence round
trip. -/
def exStoredChat : Chat := ⟨"1", "t", [⟨.user, "hey", some (.instant 0)⟩], .instant 0⟩

/-- A chat whose first message has already fixed the title. -/
def exTitledChat : Chat := ⟨"a", "hi", [exMsg], .instant 0⟩

/-- State with `exTitledChat` active, with pending input. -/
def exTitledState : HomeState := ⟨[exTitledChat], some exTitledChat, "yo"⟩

/-! ## Supporting lemmas -/

theorem foldl_append_eq_join (l : List String) :
    ∀ a : String, l.foldl (fun r s => r ++ s) a = a ++ String.join l := by
  induction l with
  | nil => intro a; simp [String.join]
  | cons x l ih =>
      intro a
      show l.foldl _ (a ++ x) = a ++ String.join (x :: l)
      have hx : String.join (x :: l) = x ++ String.join l := by
        show l.foldl _ ("" ++ x) = _
        rw [ih, String.empty_append]
      rw [ih, hx, String.append_assoc]

theorem join_cons (a : String) (l : List String) :
    String.join (a :: l) = a ++ String.join l := by
  show l.foldl _ ("" ++ a) = _
  rw [foldl_append_eq_join, String.empty_append]

theorem applyUpd_id (c : Chat) (ms : List Message) : (applyUpd c ms).id = c.id :=
  rfl

theorem updateChat_chats (s : HomeState) (cid : String) (ms : List Message) :
    (updateChat s cid ms).chats =
      s.chats.map fun c => if c.id = cid then applyUpd c ms else c :=
  rfl

theorem updateChat_find_eq (s : HomeState) (cid : String) (ms : List Message) :
    (updateChat s cid ms).chats.find? (fun c => c.id == cid) =
      (s.chats.find? (fun c => c.id == cid)).map
        (fun c => if c.id = cid then applyUpd c ms else c) := by
  rw [updateChat_chats, List.find?_map]
  have hp : ((fun c : Chat => c.id == cid) ∘
      fun c => if c.id = cid then applyUpd c ms else c) =
      fun c : Chat => c.id == cid := by
    funext c
    by_cases hc : c.id = cid
    · simp [Function.comp, hc, applyUpd_id]
    · simp [Function.comp, hc]
  rw [hp]

theorem updateChat_found (s : HomeState) (cid : String) (ms : List Message)
    (c0 : Chat) (h : getChat s cid = some c0) :
    getChat (updateChat s cid ms) cid = some (applyUpd c0 ms) ∧
      (updateChat s cid ms).activeChat = some (applyUpd c0 ms) := by
  have hid : c0.id = cid := by
    have := List.find?_some h
    simpa using this
  have h' : s.chats.find? (fun c => c.id == cid) = some c0 := h
  have hfind : (updateChat s cid ms).chats.find? (fun c => c.id == cid) =
      some (applyUpd c0 ms) := by
    rw [updateChat_find_eq, h']
    simp [hid]
  constructor
  · exact hfind
  · show (match (updateChat s cid ms).chats.find? (fun c => c.id == cid) with
      | some c => some c
      | none => s.activeChat) = some (applyUpd c0 ms)
    rw [hfind]

theorem updateChat_not_found_active (s : HomeState) (cid : String)
    (ms : List Message) (h : getChat s cid = none) :
    (updateChat s cid ms).activeChat = s.activeChat := by
  have h' : s.chats.find? (fun c => c.id == cid) = none := h
  have hfind : (updateChat s cid ms).chats.find? (fun c => c.id == cid) = none := by
    rw [updateChat_find_eq, h']
    rfl
  show (match (updateChat s cid ms).chats.find? (fun c => c.id == cid) with
    | some c => some c
    | none => s.activeChat) = s.activeChat
  rw [hfind]

theorem getChat_setInput (s : HomeState) (u : String) (cid : String) :
    getChat { s with userInput := u } cid = getChat s cid :=
  rfl

/-- Processing a delta list decomposes over append: the state reached after
the deltas `xs` is an intermediate state of any longer run `xs ++ ys`.  In
particular the state "after the k-th delta" of a run on `ds` is the state of
the complete run on `ds.take k`. -/
theorem runDeltas_append (st : HomeState) (cid : String) (base : List Message)
    (acc : String) (tick : Nat → Nat) (i : Nat) (xs ys : List String) :
    runDeltas st cid base acc tick i (xs ++ ys) =
      runDeltas (runDeltas st cid base acc tick i xs) cid base
        (acc ++ String.join xs) tick (i + xs.length) ys := by
  induction xs generalizing st acc i with
  | nil => simp [runDeltas, String.join]
  | cons x xs ih =>
      show runDeltas _ cid base (acc ++ x) tick (i + 1) (xs ++ ys) = _
      rw [ih]
      have hs : acc ++ String.join (x :: xs) = (acc ++ x) ++ String.join xs := by
        rw [join_cons, String.append_assoc]
      have hn : i + (x :: xs).length = (i + 1) + xs.length := by
        simp [List.length_cons]
        omega
      rw [hs, hn]
      rfl

/-- Main property of the delta fold: after a nonempty run, the chat with the
given id (and the active chat, which `updateChat` re-points at it) carries
the base messages plus the single assistant message holding the accumulator
extended by the concatenation of all deltas; its title is the leading-30
slice of the head of `base` whenever that slice is nonempty. -/
theorem runDeltas_found (ds : List String) (st : HomeState) (cid : String)
    (base : List Message) (acc : String) (tick : Nat → Nat) (i : Nat)
    (c0 : Chat) (h : getChat st cid = some c0) (hne : ds ≠ []) :
    ∃ c, getChat (runDeltas st cid base acc tick i ds) cid = some c ∧
      (runDeltas st cid base acc tick i ds).activeChat = some c ∧
      c.messages = base ++
        [⟨.assistant, acc ++ String.join ds, some (.instant (tick (i + ds.length - 1)))⟩] ∧
      (∀ m0 : Message, base.head? = some m0 → jsSlice 30 m0.content ≠ "" →
        c.title = jsSlice 30 m0.content) := by
  induction ds generalizing st acc i c0 with
  | nil => exact absurd rfl hne
  | cons d ds ih =>
      by_cases hds : ds = []
      · subst hds
        have hupd := updateChat_found st cid
          (base ++ [⟨.assistant, acc ++ d, some (.instant (tick i))⟩]) c0 h
        refine ⟨applyUpd c0
          (base ++ [⟨.assistant, acc ++ d, some (.instant (tick i))⟩]),
          ?_, ?_, ?_, ?_⟩
        · exact hupd.1
        · exact hupd.2
        · show base ++ [⟨.assistant, acc ++ d, some (.instant (tick i))⟩] = _
          have hjoin : acc ++ String.join [d] = acc ++ d := by
            rw [join_cons]
            show acc ++ (d ++ String.join []) = acc ++ d
            rw [show String.join [] = "" from rfl, String.append_empty]
          rw [hjoin]
          simp
        · intro m0 hm0 hslice
          show derivedTitle
            (base ++ [⟨.assistant, acc ++ d, some (.instant (tick i))⟩]) c0.title =
            jsSlice 30 m0.content
          have hhead : (base ++
              [(⟨.assistant, acc ++ d, some (.instant (tick i))⟩ : Message)]).head? =
              some m0 := by
            rw [List.head?_append, hm0]
            rfl
          rw [derivedTitle, hhead]
          simp [hslice]
      · have hupd := updateChat_found st cid
          (base ++ [⟨.assistant, acc ++ d, some (.instant (tick i))⟩]) c0 h
        obtain ⟨c, h1, h2, h3, h4⟩ := ih
          (updateChat st cid
            (base ++ [⟨.assistant, acc ++ d, some (.instant (tick i))⟩]))
          (acc ++ d) (i + 1) _ hupd.1 hds
        refine ⟨c, h1, h2, ?_, h4⟩
        rw [h3]
        have hs : (acc ++ d) ++ String.join ds = acc ++ String.join (d :: ds) := by
          rw [join_cons, String.append_assoc]
        have hn : (i + 1) + ds.length - 1 = i + (d :: ds).length - 1 := by
          simp only [List.length_cons]
          omega
        rw [hs, hn]

theorem digitVal_digitChar (d : Nat) (h : d < 10) :
    digitVal (digitChar d) = d := by
  interval_cases d <;> decide

theorem natDigitsAux_parse (fuel : Nat) :
    ∀ n acc, n ≤ fuel →
      (natDigitsAux fuel n).reverse.foldl (fun a c => a * 10 + digitVal c) acc =
        acc * 10 ^ (natDigitsAux fuel n).length + n := by
  induction fuel with
  | zero =>
      intro n acc hn
      interval_cases n
      simp [natDigitsAux]
  | succ fuel ih =>
      intro n acc hn
      match n with
      | 0 => simp [natDigitsAux]
      | m + 1 =>
          have hle : (m + 1) / 10 ≤ fuel := by omega
          show ((digitChar ((m + 1) % 10) ::
            natDigitsAux fuel ((m + 1) / 10)).reverse).foldl _ acc = _
          rw [List.reverse_cons, List.foldl_append, ih ((m + 1) / 10) acc hle]
          have hlen : (natDigitsAux (fuel + 1) (m + 1)).length =
              (natDigitsAux fuel ((m + 1) / 10)).length + 1 := by
            simp [natDigitsAux]
          rw [hlen]
          show (acc * 10 ^ (natDigitsAux fuel ((m + 1) / 10)).length + (m + 1) / 10) *
              10 + digitVal (digitChar ((m + 1) % 10)) = _
          rw [digitVal_digitChar _ (Nat.mod_lt _ (by omega)), pow_succ, ← mul_assoc]
          generalize acc * 10 ^ (natDigitsAux fuel ((m + 1) / 10)).length = A
          omega

theorem parseIso_isoOf (t : Nat) : parseIso (isoOf t) = t := by
  by_cases ht : t = 0
  · subst ht
    decide
  · rw [isoOf, if_neg ht]
    show (natDigitsAux t t).reverse.foldl (fun a c => a * 10 + digitVal c) 0 = t
    have h := natDigitsAux_parse t t 0 (Nat.le_refl t)
    simpa using h

theorem derivedTitle_of_head (ms : List Message) (old : String) (m0 : Message)
    (hm0 : ms.head? = some m0) (hslice : jsSlice 30 m0.content ≠ "") :
    derivedTitle ms old = jsSlice 30 m0.content := by
  rw [derivedTitle, hm0]
  simp [hslice]

theorem sendMessage_httpFailure_eq (s : HomeState) (ac : Chat) (now : Nat)
    (tick : Nat → Nat) (hin : jsTrim s.userInput ≠ "")
    (hactive : s.activeChat = some ac) :
    sendMessage s now tick .httpFailure =
      ⟨{ updateChat s ac.id
           (ac.messages ++ [⟨.user, s.userInput, some (.instant now)⟩]) with
         userInput := "" },
       [handleErrorToast],
       some ⟨createRickPrompt s.userInput,
         "mistralai/Mixtral-8x7B-Instruct-v0.1"⟩⟩ := by
  simp only [sendMessage]
  rw [if_neg hin, hactive]

theorem sendMessage_stream_eq (s : HomeState) (ac : Chat) (now : Nat)
    (tick : Nat → Nat) (ds : List String) (e : Bool)
    (hin : jsTrim s.userInput ≠ "") (hactive : s.activeChat = some ac) :
    sendMessage s now tick (.stream ds e) =
      ⟨runDeltas
         { updateChat s ac.id
             (ac.messages ++ [⟨.user, s.userInput, some (.instant now)⟩]) with
           userInput := "" }
         ac.id (ac.messages ++ [⟨.user, s.userInput, some (.instant now)⟩])
         "" tick 0 ds,
       [],
       some ⟨createRickPrompt s.userInput,
         "mistralai/Mixtral-8x7B-Instruct-v0.1"⟩⟩ := by
  simp only [sendMessage]
  rw [if_neg hin, hactive]

theorem sendMessage_stream_found (s : HomeState) (ac : Chat) (now : Nat)
    (tick : Nat → Nat) (ds : List String) (e : Bool)
    (hactive : s.activeChat = some ac) (hchat : getChat s ac.id = some ac)
    (hin : jsTrim s.userInput ≠ "") (hds : ds ≠ []) :
    ∃ c,
      getChat (sendMessage s now tick (.stream ds e)).state ac.id = some c ∧
      (sendMessage s now tick (.stream ds e)).state.activeChat = some c ∧
      c.messages = ac.messages ++
        [⟨.user, s.userInput, some (.instant now)⟩,
         ⟨.assistant, String.join ds,
           some (.instant (tick (ds.length - 1)))⟩] ∧
      (∀ m0 : Message, ac.messages.head? = some m0 →
        jsSlice 30 m0.content ≠ "" → c.title = jsSlice 30 m0.content) := by
  rw [sendMessage_stream_eq s ac now tick ds e hin hactive]
  have hupd := updateChat_found s ac.id
    (ac.messages ++ [⟨.user, s.userInput, some (.instant now)⟩]) ac hchat
  have hchat1 : getChat
      { updateChat s ac.id
          (ac.messages ++ [⟨.user, s.userInput, some (.instant now)⟩]) with
        userInput := "" } ac.id =
      some (applyUpd ac
        (ac.messages ++ [⟨.user, s.userInput, some (.instant now)⟩])) :=
    hupd.1
  obtain ⟨c, h1, h2, h3, h4⟩ := runDeltas_found ds
    { updateChat s ac.id
        (ac.messages ++ [⟨.user, s.userInput, some (.instant now)⟩]) with
      userInput := "" }
    ac.id (ac.messages ++ [⟨.user, s.userInput, some (.instant now)⟩])
    "" tick 0
    (applyUpd ac (ac.messages ++ [⟨.user, s.userInput, some (.instant now)⟩]))
    hchat1 hds
  refine ⟨c, h1, h2, ?_, ?_⟩
  · rw [h3]
    simp [List.append_assoc]
  · intro m0 hm0 hsl
    apply h4
    · rw [List.head?_append, hm0]
      rfl
    · exact hsl

/-! ## Claim theorems -/

/-- C5: `updateChat` (the `appendAndReplaceMessages` primitive) leaves every
conversation whose id differs from the target untouched — same id, title,
messages and createdAt, at the same display position. -/
theorem updateChat_frame_other_chats (s : HomeState) (cid : String)
    (ms : List Message) (i : Nat) (c : Chat) (h : s.chats[i]? = some c)
    (hne : c.id ≠ cid) :
    (updateChat s cid ms).chats[i]? = some c := by
  rw [updateChat_chats, List.getElem?_map, h]
  simp [hne]

/-- Witness for C5: with two chats present, updating the first (id `"a"`)
leaves the second chat record at index 1 unchanged. -/
theorem updateChat_frame_other_chats_witness :
    (updateChat exTwoChatState "a" [exMsg]).chats[1]? = some exChatB :=
  updateChat_frame_other_chats exTwoChatState "a" [exMsg] 1 exChatB (by decide)
    (by decide)

/-- C6 (counterexample): the claim says the active-conversation reference is
updated only when the target conversation is the active one.  In
`exTwoChatState` the active chat is `exChatA`, yet updating chat `"b"`
changes the active reference (to the updated `exChatB`): `updateChat`
re-points `activeChat` at the target whenever the id exists. -/
theorem updateChat_active_switches_to_nonactive_target :
    (updateChat exTwoChatState "b" [exMsg]).activeChat ≠
      exTwoChatState.activeChat := by
  decide

/-- C6 (amended): `updateChat` sets the active-conversation reference to the
updated target conversation whenever a conversation with the given id
exists, regardless of which conversation was active before; only when no
conversation matches the id is the active reference left unchanged. -/
theorem updateChat_active_follows_target (s : HomeState) (cid : String)
    (ms : List Message) :
    ((∃ c0, getChat s cid = some c0) →
      ∃ c, (updateChat s cid ms).activeChat = some c ∧ c.id = cid ∧
        c.messages = ms) ∧
    (getChat s cid = none → (updateChat s cid ms).activeChat = s.activeChat) := by
  constructor
  · rintro ⟨c0, h⟩
    have hid : c0.id = cid := by simpa using List.find?_some h
    exact ⟨applyUpd c0 ms, (updateChat_found s cid ms c0 h).2,
      by rw [applyUpd_id, hid], rfl⟩
  · intro h
    exact updateChat_not_found_active s cid ms h

/-- Witness for C6 (amended): updating the non-active chat `"b"` makes a
chat with id `"b"` and the new message list active. -/
theorem updateChat_active_follows_target_witness :
    ∃ c, (updateChat exTwoChatState "b" [exMsg]).activeChat = some c ∧
      c.id = "b" ∧ c.messages = [exMsg] :=
  (updateChat_active_follows_target exTwoChatState "b" [exMsg]).1
    ⟨exChatB, by decide⟩

/-- C7: `createNewChat` always succeeds, appends a chat with an empty
message list and the generated default title after all existing chats, and
makes it the active chat. -/
theorem createNewChat_spec (s : HomeState) (now : Nat) :
    (createNewChat s now).chats = s.chats ++ [newChatRecord s now] ∧
    (createNewChat s now).activeChat = some (newChatRecord s now) ∧
    (newChatRecord s now).messages = [] ∧
    (newChatRecord s now).title = "New Chat " ++ toString (s.chats.length + 1) :=
  ⟨rfl, rfl, rfl, rfl⟩

/-- C9: when `TOGETHER_API_KEY` is absent (or empty, which is equally falsy)
the API route module fails at module initialization with the configuration
error, and no `POST` handler is ever produced — so it cannot fail on a first
request instead. -/
theorem missing_key_fails_startup (key : Option String) (h : key.getD "" = "") :
    apiModule key = .error missingKeyError := by
  simp [apiModule, h]

/-- Witness for C9: with the variable absent the module errors out. -/
theorem missing_key_fails_startup_witness :
    apiModule none = .error missingKeyError :=
  missing_key_fails_startup none rfl

/-- C10: with input that trims to empty, `sendMessage` returns before doing
anything: the state (chat list, active chat, pending input) is unchanged, no
toast is raised and no request is issued — hence nothing new is persisted. -/
theorem blank_input_send_noop (s : HomeState) (now : Nat) (tick : Nat → Nat)
    (resp : GatewayResponse) (h : jsTrim s.userInput = "") :
    sendMessage s now tick resp = ⟨s, [], none⟩ := by
  simp [sendMessage, h]

/-- Witness for C10: a whitespace-only input is a no-op send. -/
theorem blank_input_send_noop_witness :
    sendMessage ⟨[], none, " "⟩ 0 (fun _ => 0) .httpFailure =
      ⟨⟨[], none, " "⟩, [], none⟩ :=
  blank_input_send_noop ⟨[], none, " "⟩ 0 (fun _ => 0) .httpFailure (by decide)

/-- C2 (counterexample): storing and reloading is not the identity on
session states, even though no timestamp in `exTwoChatState` changes
representation (both chats round-trip their `createdAt` exactly, and there
are no message timestamps).  Only the chat list is persisted; on load the
*last* chat becomes active, whereas `exTwoChatState` had the first chat
active. -/
theorem load_store_roundtrip_fails :
    loadChats (storeChats exTwoChatState.chats) ≠ exTwoChatState := by
  decide

/-- C2 (amended): storing persists only the conversation list; reloading it
restores every conversation with `createdAt` parsed back to the same
instant, but message timestamps are left as their serialized text, and the
active conversation is reset to the last conversation of the list (none if
empty) while the input box is reset to empty.  Formally
`load(store(S.chats))` is `S.chats` mapped through the message-timestamp
degrade, with the last such chat active. -/
theorem load_store_roundtrip (cs : List Chat)
    (h : ∀ c ∈ cs, ∃ t, c.createdAt = .instant t) :
    loadChats (storeChats cs) =
      ⟨cs.map roundTrippedChat, (cs.map roundTrippedChat).getLast?, ""⟩ := by
  have hmap : (storeChats cs).map loadChat = cs.map roundTrippedChat := by
    rw [storeChats, List.map_map]
    apply List.map_congr_left
    intro c hc
    obtain ⟨t, ht⟩ := h c hc
    simp [Function.comp, loadChat, roundTrippedChat, roundTrippedMessage,
      List.map_map, Option.map_map, ht, serializeTime, parseIso_isoOf]
    intro a _
    cases a.timestamp <;> rfl
  show HomeState.mk ((storeChats cs).map loadChat)
      ((storeChats cs).map loadChat).getLast? "" = _
  rw [hmap]

/-- Witness for C2 (amended): one chat with a timestamped message
round-trips to the same chat with the message timestamp degraded to text. -/
theorem load_store_roundtrip_witness :
    loadChats (storeChats [exStoredChat]) =
      ⟨[exStoredChat].map roundTrippedChat,
       ([exStoredChat].map roundTrippedChat).getLast?, ""⟩ :=
  load_store_roundtrip [exStoredChat] (by
    intro c hc
    simp only [List.mem_singleton] at hc
    subst hc
    exact ⟨0, rfl⟩)

/-- C1: during a streamed reply the state after the `k`-th delta is the
state of the complete run on the first `k` deltas (`runDeltas` is a
sequential fold, `runDeltas_append`).  For every `1 ≤ k ≤ n`, after the
`k`-th delta the active conversation — which is also the stored conversation
with the active id — holds the prior messages (including the just-appended
user message) followed by exactly one assistant message whose content is the
concatenation `d1 ++ ... ++ dk` in arrival order; `k = n` gives the final
content `d1 ++ ... ++ dn` regardless of delta granularity. -/
theorem stream_concat_assembly (s : HomeState) (ac : Chat) (now : Nat)
    (tick : Nat → Nat) (deltas : List String) (k : Nat) (errored : Bool)
    (hactive : s.activeChat = some ac) (hchat : getChat s ac.id = some ac)
    (hinput : jsTrim s.userInput ≠ "") (hk1 : 1 ≤ k)
    (hk2 : k ≤ deltas.length) :
    ∃ c,
      getChat (sendMessage s now tick
        (.stream (deltas.take k) errored)).state ac.id = some c ∧
      (sendMessage s now tick
        (.stream (deltas.take k) errored)).state.activeChat = some c ∧
      c.messages = ac.messages ++
        [⟨.user, s.userInput, some (.instant now)⟩,
         ⟨.assistant, String.join (deltas.take k),
           some (.instant (tick (k - 1)))⟩] := by
  have hne : deltas.take k ≠ [] := by
    intro hempty
    have hlen := congrArg List.length hempty
    simp only [List.length_take, List.length_nil] at hlen
    omega
  obtain ⟨c, h1, h2, h3, -⟩ :=
    sendMessage_stream_found s ac now tick (deltas.take k) errored hactive
      hchat hinput hne
  have hlen : (deltas.take k).length = k := by
    rw [List.length_take]
    omega
  rw [hlen] at h3
  exact ⟨c, h1, h2, h3⟩

/-- Witness for C1: streaming the two deltas `"ab"`, `"c"` into the active
chat yields the user message followed by one assistant message `"abc"`. -/
theorem stream_concat_assembly_witness :
    ∃ c,
      getChat (sendMessage exTitledState 1 (fun i => i)
        (.stream (["ab", "c"].take 2) false)).state exTitledChat.id = some c ∧
      (sendMessage exTitledState 1 (fun i => i)
        (.stream (["ab", "c"].take 2) false)).state.activeChat = some c ∧
      c.messages = exTitledChat.messages ++
        [⟨.user, exTitledState.userInput, some (.instant 1)⟩,
         ⟨.assistant, String.join (["ab", "c"].take 2),
           some (.instant ((fun i => i) (2 - 1)))⟩] :=
  stream_concat_assembly exTitledState exTitledChat 1 (fun i => i)
    ["ab", "c"] 2 false rfl (by decide) (by decide) (by decide) (by decide)

/-- C4: once the active conversation's first message has nonempty content
and its title is that message's leading-30 slice, any further send — with
any gateway outcome, so in particular appending a user message and every
streaming update — leaves the title equal to that same slice: `updateChat`
recomputes the title from the unchanged first message on every call. -/
theorem title_set_once_from_first_message (s : HomeState) (ac : Chat)
    (m0 : Message) (now : Nat) (tick : Nat → Nat) (resp : GatewayResponse)
    (hactive : s.activeChat = some ac) (hchat : getChat s ac.id = some ac)
    (hm0 : ac.messages.head? = some m0)
    (hslice : jsSlice 30 m0.content ≠ "")
    (htitle : ac.title = jsSlice 30 m0.content) :
    ∃ c, getChat (sendMessage s now tick resp).state ac.id = some c ∧
      c.title = jsSlice 30 m0.content := by
  by_cases hin : jsTrim s.userInput = ""
  · have hnoop : sendMessage s now tick resp = ⟨s, [], none⟩ := by
      simp [sendMessage, hin]
    rw [hnoop]
    exact ⟨ac, hchat, htitle⟩
  · have hbase_head : (ac.messages ++
        [(⟨.user, s.userInput, some (.instant now)⟩ : Message)]).head? =
        some m0 := by
      rw [List.head?_append, hm0]
      rfl
    have hupd := updateChat_found s ac.id
      (ac.messages ++ [⟨.user, s.userInput, some (.instant now)⟩]) ac hchat
    cases resp with
    | httpFailure =>
        rw [sendMessage_httpFailure_eq s ac now tick hin hactive]
        exact ⟨applyUpd ac _, hupd.1,
          derivedTitle_of_head _ ac.title m0 hbase_head hslice⟩
    | stream ds e =>
        by_cases hds : ds = []
        · subst hds
          rw [sendMessage_stream_eq s ac now tick [] e hin hactive]
          exact ⟨applyUpd ac _, hupd.1,
            derivedTitle_of_head _ ac.title m0 hbase_head hslice⟩
        · obtain ⟨c, h1, -, -, h4⟩ :=
            sendMessage_stream_found s ac now tick ds e hactive hchat hin hds
          exact ⟨c, h1, h4 m0 hm0 hslice⟩

/-- Witness for C4: the chat titled `"hi"` by its first message keeps that
title across a further (failing) send. -/
theorem title_set_once_from_first_message_witness :
    ∃ c, getChat (sendMessage exTitledState 0 (fun i => i)
      .httpFailure).state exTitledChat.id = some c ∧
      c.title = jsSlice 30 exMsg.content :=
  title_set_once_from_first_message exTitledState exTitledChat exMsg 0
    (fun i => i) .httpFailure rfl (by decide) rfl (by decide) (by decide)

/-- C8 (counterexample): the claim says a stream error is surfaced as a
transient notification.  The source registers only a `content` handler on
the stream runner and the surrounding `try`/`catch` has already returned
when stream events arrive, so an errored stream raises no toast: here a
stream that errors after the delta `"Pa"` produces an empty toast list. -/
theorem stream_error_produces_no_toast :
    (sendMessage exSendState 0 (fun _ => 0) (.stream ["Pa"] true)).toasts = [] := by
  decide

/-- C8 (amended): if the initial request fails, the error toast is shown,
exactly the one request was issued, and the active conversation holds the
just-sent user message and no assistant message; if instead the stream
errors after its deltas, no toast is shown and the partial assistant content
assembled so far remains (no rollback).  In both cases the one `request`
field is the only request the operation ever issues — there is no retry. -/
theorem send_failure_behavior (s : HomeState) (ac : Chat) (now : Nat)
    (tick : Nat → Nat) (hactive : s.activeChat = some ac)
    (hchat : getChat s ac.id = some ac) (hin : jsTrim s.userInput ≠ "") :
    ((sendMessage s now tick .httpFailure).toasts = [handleErrorToast] ∧
      (sendMessage s now tick .httpFailure).request =
        some ⟨createRickPrompt s.userInput,
          "mistralai/Mixtral-8x7B-Instruct-v0.1"⟩ ∧
      ∃ c, getChat (sendMessage s now tick .httpFailure).state ac.id = some c ∧
        c.messages = ac.messages ++
          [⟨.user, s.userInput, some (.instant now)⟩]) ∧
    ∀ ds : List String, ds ≠ [] →
      (sendMessage s now tick (.stream ds true)).toasts = [] ∧
      ∃ c, getChat (sendMessage s now tick (.stream ds true)).state ac.id =
          some c ∧
        c.messages = ac.messages ++
          [⟨.user, s.userInput, some (.instant now)⟩,
           ⟨.assistant, String.join ds,
             some (.instant (tick (ds.length - 1)))⟩] := by
  have hupd := updateChat_found s ac.id
    (ac.messages ++ [⟨.user, s.userInput, some (.instant now)⟩]) ac hchat
  constructor
  · rw [sendMessage_httpFailure_eq s ac now tick hin hactive]
    exact ⟨rfl, rfl, applyUpd ac _, hupd.1, rfl⟩
  · intro ds hds
    obtain ⟨c, h1, -, h3, -⟩ :=
      sendMessage_stream_found s ac now tick ds true hactive hchat hin hds
    refine ⟨?_, c, h1, h3⟩
    rw [sendMessage_stream_eq s ac now tick ds true hin hactive]

/-- Witness for C8 (amended): on HTTP failure the toast appears; on a
stream error after two deltas no toast appears. -/
theorem send_failure_behavior_witness :
    (sendMessage exSendState 0 (fun _ => 0) .httpFailure).toasts =
      [handleErrorToast] ∧
    (sendMessage exSendState 0 (fun _ => 0) (.stream ["x", "y"] true)).toasts =
      [] :=
  ⟨(send_failure_behavior exSendState exChatA 0 (fun _ => 0) rfl (by decide)
      (by decide)).1.1,
   ((send_failure_behavior exSendState exChatA 0 (fun _ => 0) rfl (by decide)
      (by decide)).2 ["x", "y"] (by decide)).1⟩

/-- C3 (counterexample): the claim says a single send of `"Hello"` from an
empty session creates a conversation titled `"Hello"` holding the user
message.  In fact `sendMessage` with no active chat calls `createNewChat`
and returns: the one resulting conversation is titled `"New Chat 1"`, has no
messages, the input is not cleared, and no request is issued — so no deltas
can stream. -/
theorem first_send_from_empty_creates_blank_chat :
    (sendMessage ⟨[], none, "Hello"⟩ 0 (fun _ => 0)
        (.stream ["H", "i", " there"] false)).state =
      ⟨[⟨"0", "New Chat 1", [], .instant 0⟩],
       some ⟨"0", "New Chat 1", [], .instant 0⟩, "Hello"⟩ ∧
    (sendMessage ⟨[], none, "Hello"⟩ 0 (fun _ => 0)
        (.stream ["H", "i", " there"] false)).request = none := by
  decide

/-- C3 (amended): from a no-conversation state, submitting `"Hello"` first
creates an empty active conversation with the default title `"New Chat 1"`
and sends nothing; submitting the still-pending `"Hello"` a second time
appends the user message (retitling the conversation `"Hello"`), and after
the gateway streams `"H"`, `"i"`, `" there"` the conversation holds a second,
assistant message with content `"Hi there"`. -/
theorem hello_scenario_needs_second_send :
    (sendMessage (sendMessage ⟨[], none, "Hello"⟩ 0 (fun _ => 0)
        (.stream ["H", "i", " there"] false)).state
        1 (fun _ => 2) (.stream ["H", "i", " there"] false)).state =
      ⟨[⟨"0", "Hello",
          [⟨.user, "Hello", some (.instant 1)⟩,
           ⟨.assistant, "Hi there", some (.instant 2)⟩], .instant 0⟩],
       some ⟨"0", "Hello",
          [⟨.user, "Hello", some (.instant 1)⟩,
           ⟨.assistant, "Hi there", some (.instant 2)⟩], .instant 0⟩,
       ""⟩ := by
  decide

end Rickify
